import Mathlib

/-!
Verification development for the tvnamer episode-resolution and rename
engine (src/tvnamer/database.py and src/tvnamer/main.py), as a shallow
embedding: the sqlite-backed decision cache becomes a list of rows, the
retry loop of get_episode_name_maybe_prompt becomes a step function driven
by a trace of resolver outcomes and user answers, and exceptions become
Except values. The schema's NOT NULL columns are modelled: every column of
series_location is Mapped[str] (not Optional), so rows never store NULL,
an INSERT that omits a column raises IntegrityError, and the merge step of
upsert always sees a fully populated existing row.
-/

namespace Tvnamer

/-- Row of the series_location table (database.py, class KVStore). Every
column is annotated Mapped[str], which under the typed declarative mapping
makes it NOT NULL, so a stored row always has all five fields; they are
therefore plain String here. -/
structure KVStore where
  fullfilename : String
  seriesid : String
  season : String
  episode : String
  newfilename : String
deriving Repr, DecidableEq

/-- The decision cache: the rows of the series_location table, in insertion
order. The primary key on fullfilename is an invariant stated as uniqueKeys
where a proof needs it. -/
abbrev Cache := List KVStore

/-- Errors raised out of the sqlalchemy layer by the database functions:
one_or_none with several matching rows raises MultipleResultsFound,
fetchone on a result that returns no rows (such as the CursorResult of a
DELETE) raises ResourceClosedError, and an INSERT that omits a NOT NULL
column raises IntegrityError (the ON CONFLICT clause only covers the
uniqueness conflict, not NOT NULL violations). -/
inductive DbError where
  | multipleResultsFound
  | resourceClosedError
  | integrityError
deriving Repr, DecidableEq

/-- SELECT ... WHERE fullfilename = p, returning the first matching row;
the primary key on fullfilename makes the match unique in practice. -/
def findRecord (cache : Cache) (fullfilename : String) : Option KVStore :=
  cache.find? (fun r => r.fullfilename == fullfilename)

/-- The primary-key invariant the database enforces on series_location: no
two rows share a fullfilename. -/
def uniqueKeys (cache : Cache) : Prop :=
  cache.Pairwise (fun a b => a.fullfilename ≠ b.fullfilename)

/-- database.lookup (database.py 49-52): the seriesid of the row keyed by
fullfilename, or none when there is no such row. -/
def lookup (cache : Cache) (fullfilename : String) : Option String :=
  match findRecord cache fullfilename with
  | none => none
  | some r => some r.seriesid

/-- database.find_by_newname (database.py 53-56): one_or_none over the rows
whose newfilename equals the query — none on no match, the row on a unique
match, MultipleResultsFound on two or more matches (newfilename is indexed
but not unique). -/
def find_by_newname (cache : Cache) (newfilename : String) :
    Except DbError (Option KVStore) :=
  match cache.filter (fun r => r.newfilename == newfilename) with
  | [] => .ok none
  | [r] => .ok (some r)
  | _ => .error .multipleResultsFound

/-- database.upsert (database.py 58-66): values is the supplied non-null
fields. When a row for fullfilename exists, values.update(existing.to_dict())
overwrites every supplied value — the existing row is fully populated (NOT
NULL schema), to_dict returns all five fields — so the INSERT carries the
existing row's values and the ON CONFLICT DO UPDATE rewrites the
conflicting row to itself (a no-op write). When no row exists, the INSERT
lists only the supplied columns: it succeeds when all four non-key fields
are supplied and raises IntegrityError on any omitted NOT NULL column,
in which case nothing is inserted and session.commit() is never reached. -/
def upsert (cache : Cache) (fullfilename : String)
    (seriesid season episode newfilename : Option String) :
    Except DbError Cache :=
  match findRecord cache fullfilename with
  | some r =>
      .ok (cache.map (fun q => if q.fullfilename == fullfilename then r else q))
  | none =>
      match seriesid, season, episode, newfilename with
      | some a, some b, some c, some d => .ok (cache ++ [⟨fullfilename, a, b, c, d⟩])
      | _, _, _, _ => .error .integrityError

/-- What database.forget (database.py 68-70) leaves behind: the session
state produced by the DELETE, and the value of the call itself. -/
structure ForgetEffect where
  uncommitted : Cache
  result : Except DbError Unit
deriving Repr

/-- database.forget (database.py 68-70): session.execute(stmt) runs
DELETE ... WHERE fullfilename = p inside the session (never committed by
this function), and the trailing .fetchone() is called on the DELETE's
CursorResult, which returns no rows — fetchone on such a result raises
ResourceClosedError, so the call never returns normally. -/
def forget (cache : Cache) (fullfilename : String) : ForgetEffect :=
  { uncommitted := cache.filter (fun r => r.fullfilename != fullfilename)
    result := .error .resourceClosedError }

/-- Configuration values read by the resolution state machine, the rename
planner and the file relocator (the global Config object of main.py).
skip_behaviour is compared as a string against "exit" and "ask"; any other
value behaves as skip. -/
structure Config where
  skip_behaviour : String
  always_rename : Bool
  skip_file_on_error : Bool
  series_id : Option String
  remember_choice : Bool
deriving Repr, DecidableEq

/-- Python's x or y for optional strings: None and the empty string are
falsy, so they yield y; any other string is returned itself. -/
def pyOr (a b : Option String) : Option String :=
  match a with
  | some s => if s == "" then b else some s
  | none => b

/-- Python's x or None for a string x: none when x is falsy (empty). -/
def pyOrNone (s : String) : Option String :=
  if s == "" then none else some s

/-- lookup_previous_choice (main.py 171-179): a noop returning none when
should_lookup is false, otherwise the cached series id for the path. -/
def lookup_previous_choice (cache : Cache) (should_lookup : Bool)
    (fullfilename : String) : Option String :=
  if !should_lookup then none
  else lookup cache fullfilename

/-- The series-id hint computed on every pass of the loop (main.py line
218): Config series_id or lookup_previous_choice(Config remember_choice,
episode.fullfilename), with Python or-semantics. -/
def series_hint (cfg : Config) (cache : Cache) (fullfilename : String) :
    Option String :=
  pyOr cfg.series_id (lookup_previous_choice cache cfg.remember_choice fullfilename)

/-- The pieces of the episode value that store_new_choice reads. noSeason
marks a NoSeasonEpisodeInfo, whose season is stored as the sentinel "00". -/
structure EpisodeMeta where
  fullfilename : String
  noSeason : Bool
  seasonnumber : Nat
  episodenumbers : List Nat
deriving Repr, DecidableEq

/-- store_new_choice (main.py 181-184): upserts the series id, the season
label (str(seasonnumber), or "00" for seasonless episodes) and the
space-joined episode numbers; newfilename is passed as None, so on a path
with no existing row the INSERT omits the NOT NULL newfilename column and
the call raises IntegrityError. -/
def store_new_choice (cache : Cache) (fullfilename : String)
    (seriesid : Option String) (e : EpisodeMeta) : Except DbError Cache :=
  let season := if e.noSeason then "00" else toString e.seasonnumber
  let label := String.intercalate " " (e.episodenumbers.map (fun i => toString i))
  upsert cache fullfilename seriesid (some season) (some label) none

/-- The three post-name-resolution identity errors, raised and handled by
the same except arm (main.py line 255). -/
inductive IdErrKind where
  | seasonNotFound
  | episodeNotFound
  | episodeNameNotFound
deriving Repr, DecidableEq

/-- Outcome of one episode.populate_from_tvdb call as the loop observes it.
Modelled from the spec: populate_from_tvdb lives in tvnamer.data, which is
not under src/. Per spec 4.2/4.3, Season/Episode/EpisodeName-NotFound occur
past name resolution — the show was found, so the episode's seriesid
attribute is set (to sid) before the error propagates; ShowNotFound and
DataRetrievalError leave the attribute untouched; success sets it. -/
inductive Attempt where
  | success (sid : String)
  | showNotFound
  | dataRetrievalError
  | identityErr (k : IdErrKind) (sid : String)
deriving Repr, DecidableEq

/-- Whether the attempt is a successful resolution. -/
def Attempt.isSuccess : Attempt → Bool
  | .success _ => true
  | _ => false

/-- Environment consumed by one pass of the while loop: the resolver
outcome of this pass's populate_from_tvdb call, and the user's (stripped)
answer if ask_for_seriesname prompts on this pass. -/
structure IterInput where
  attempt : Attempt
  userAnswer : String
deriving Repr, DecidableEq

/-- Mutable locals of get_episode_name_maybe_prompt, plus the episode's
seriesid attribute (none while the attribute is unset). retries is a Python
int: the success branch sets it to 0 and the trailing decrement drives it
to -1. -/
structure LoopState where
  retries : Int
  force_name : Option String
  episodeSid : Option String
deriving Repr, DecidableEq

/-- Locals at loop entry (main.py 201-202): retries = 1, force_name = None,
and no seriesid attribute on the episode yet. -/
def initLoopState : LoopState :=
  { retries := 1, force_name := none, episodeSid := none }

/-- Result of one pass of the loop body: raise SkipBehaviourAbort, return
None, or fall to the bottom of the loop with updated locals. -/
inductive PassResult where
  | raiseAbort
  | returnNone
  | nextState (s : LoopState)
deriving Repr, DecidableEq

/-- One pass of the retry loop body of get_episode_name_maybe_prompt
(main.py 203-265), including the trailing retries -= 1 of line 265, which
runs on every path that does not return or raise. -/
def loop_pass (cfg : Config) (s : LoopState) (i : IterInput) : PassResult :=
  match i.attempt with
  | .success sid =>
      .nextState { retries := 0 - 1, force_name := s.force_name, episodeSid := some sid }
  | .showNotFound =>
      if cfg.skip_behaviour == "exit" then .raiseAbort
      else if cfg.skip_behaviour == "ask" then
        let fn := i.userAnswer
        let r := if fn.length > 1 then s.retries + 1 else s.retries
        .nextState { retries := r - 1, force_name := some fn, episodeSid := s.episodeSid }
      else .returnNone
  | .dataRetrievalError =>
      if cfg.always_rename && cfg.skip_file_on_error then
        if cfg.skip_behaviour == "exit" then .raiseAbort
        else if cfg.skip_behaviour == "ask" then
          let fn := i.userAnswer
          let r := if fn.length > 1 then s.retries + 1 else s.retries
          .nextState { retries := r - 1, force_name := some fn, episodeSid := s.episodeSid }
        else .returnNone
      else
        .nextState { retries := s.retries - 1, force_name := s.force_name,
                     episodeSid := s.episodeSid }
  | .identityErr _ sid =>
      if cfg.always_rename && cfg.skip_file_on_error then
        if cfg.skip_behaviour == "exit" then .raiseAbort
        else .returnNone
      else
        .nextState { retries := s.retries - 1, force_name := s.force_name,
                     episodeSid := some sid }

/-- Terminal observation of the loop: it fell through the while condition
(the function then runs its store step and returns the episode), returned
None, raised SkipBehaviourAbort, or — pending — exhausted the supplied
trace while the loop would still iterate (used to express looping without
further input). -/
inductive Outcome where
  | fellThrough (s : LoopState)
  | returnedNone
  | abortBatch
  | pending (s : LoopState)
deriving Repr, DecidableEq

/-- Runs while retries > 0 against a trace of per-pass environment inputs. -/
def run_machine (cfg : Config) (s : LoopState) : List IterInput → Outcome
  | [] => if s.retries ≤ 0 then .fellThrough s else .pending s
  | i :: rest =>
      if s.retries ≤ 0 then .fellThrough s
      else
        match loop_pass cfg s i with
        | .raiseAbort => .abortBatch
        | .returnNone => .returnedNone
        | .nextState s2 => run_machine cfg s2 rest

def Outcome.isPending : Outcome → Bool
  | .pending _ => true
  | _ => false

/-- One file of a batch: its episode data and the environment trace its
resolution loop consumes. -/
structure FileJob where
  meta : EpisodeMeta
  trace : List IterInput
deriving Repr, DecidableEq

/-- How one file's resolution phase ends for the batch driver: processing
continues with the (possibly updated) cache, SkipBehaviourAbort was raised,
or an uncaught database error (IntegrityError from the store) escaped. -/
inductive FileOutcome where
  | ok (cache : Cache)
  | abort
  | dbError (e : DbError)
deriving Repr, DecidableEq

/-- The resolution phase of process_file for one file (main.py 200-268):
run the retry loop; when it falls through and the episode carries a
seriesid attribute, store_new_choice runs (with episode.seriesid or None) —
its IntegrityError on an unrecorded path is uncaught and escapes; the
return-None and SkipBehaviourAbort paths never reach line 266. -/
def process_file_resolution (cfg : Config) (cache : Cache) (j : FileJob) :
    FileOutcome :=
  match run_machine cfg initLoopState j.trace with
  | .abortBatch => .abort
  | .fellThrough s =>
      match s.episodeSid with
      | some sid =>
          match store_new_choice cache j.meta.fullfilename (pyOrNone sid) j.meta with
          | .ok cache2 => .ok cache2
          | .error err => .dbError err
      | none => .ok cache
  | _ => .ok cache

/-- Cache observation of one whole get_episode_name_maybe_prompt call: the
committed database state afterwards, and the database error that escaped,
if any (an IntegrityError aborts before session.commit(), leaving the
cache as it was). -/
def resolution_cache_effect (cfg : Config) (cache : Cache) (e : EpisodeMeta)
    (trace : List IterInput) : Cache × Option DbError :=
  match process_file_resolution cfg cache ⟨e, trace⟩ with
  | .ok cache2 => (cache2, none)
  | .abort => (cache, none)
  | .dbError err => (cache, some err)

/-- Result of the per-file loop of tvnamer (main.py 434-435): every file
was processed; SkipBehaviourAbort escaped while processing a file, after
nBefore earlier files had completed; or an uncaught database error crashed
the run at a file, after nBefore earlier files had completed. -/
inductive BatchResult where
  | completed (n : Nat)
  | aborted (nBefore : Nat)
  | crashed (nBefore : Nat)
deriving Repr, DecidableEq

/-- The batch driver restricted to the resolution phase: process_file runs
the state machine and the post-loop store on each file in order, threading
the cache; SkipBehaviourAbort and uncaught database errors both end the
batch at that file. -/
def run_batch (cfg : Config) : Cache → List FileJob → BatchResult
  | _, [] => .completed 0
  | cache, j :: rest =>
      match process_file_resolution cfg cache j with
      | .abort => .aborted 0
      | .dbError _ => .crashed 0
      | .ok cache2 =>
          match run_batch cfg cache2 rest with
          | .completed n => .completed (n + 1)
          | .aborted n => .aborted (n + 1)
          | .crashed n => .crashed (n + 1)

/-- The only code paths that increment retries (main.py 234-235 and
248-249): an ask-branch prompt whose answer is longer than one character,
reached from ShowNotFound always and from DataRetrievalError only under
always_rename and skip_file_on_error. -/
def increments (cfg : Config) (i : IterInput) : Bool :=
  cfg.skip_behaviour == "ask" && i.userAnswer.length > 1 &&
    (match i.attempt with
     | .showNotFound => true
     | .dataRetrievalError => cfg.always_rename && cfg.skip_file_on_error
     | _ => false)

/-- The destination-name selection of generate_filename_and_rename
(main.py 293-298): base_name stands for episode.generate_filename() and
variant_name for episode.generate_filename(add_variant=True) (template
formatting is an external collaborator); the variant is taken exactly when
the reverse lookup finds a row whose source path differs; a
MultipleResultsFound from find_by_newname propagates. -/
def collision_adjusted_name (cache : Cache) (fullfilename base_name variant_name : String) :
    Except DbError String :=
  match find_by_newname cache base_name with
  | .error e => .error e
  | .ok collision =>
      .ok (match collision with
           | some r => if r.fullfilename != fullfilename then variant_name else base_name
           | none => base_name)

/-- Rename-planning portion of generate_filename_and_rename (main.py
270-299): when the computed name equals the current filename the
else-branch (collision check and cache write) is skipped; otherwise the
collision-adjusted name is chosen and line 299 upserts it as this path's
newfilename — a write that no-ops on a recorded path and raises
IntegrityError on an unrecorded one (the INSERT omits three NOT NULL
columns), which is uncaught. -/
def plan_rename (cache : Cache) (fullfilename base_name variant_name : String) :
    Except DbError (String × Cache) :=
  if base_name == fullfilename then .ok (base_name, cache)
  else
    match collision_adjusted_name cache fullfilename base_name variant_name with
    | .error e => .error e
    | .ok new_name =>
        match upsert cache fullfilename none none none (some new_name) with
        | .ok cache2 => .ok (new_name, cache2)
        | .error e => .error e

/-- Outcome of the cnamer.new_path call inside do_file_operation, as the
except arms of main.py 128-139 distinguish it. -/
inductive NewPathResult where
  | ok (p : String)
  | fileExistsError
  | osError
deriving Repr, DecidableEq

/-- Errors do_file_operation can raise: the destination-arguments contract
ValueError, and SkipBehaviourAbort under the exit policy. -/
inductive FileOpError where
  | valueError
  | skipBehaviourAbort
deriving Repr, DecidableEq

/-- (dest_dir, dest_filepath).count(None) from main.py line 116. -/
def countNone (a b : Option String) : Nat :=
  (if a = none then 1 else 0) + (if b = none then 1 else 0)

/-- do_file_operation (main.py 111-139): the argument-contract guard runs
first and raises ValueError unless exactly one destination form is given;
then the new_path outcome is returned on success, while FileExistsError and
OSError are turned into SkipBehaviourAbort under the exit policy and into a
skipped file (None) otherwise. -/
def do_file_operation (skip_behaviour : String) (dest_dir dest_filepath : Option String)
    (attempt : NewPathResult) : Except FileOpError (Option String) :=
  if countNone dest_dir dest_filepath ≠ 1 then .error .valueError
  else
    match attempt with
    | .ok p => .ok (some p)
    | .fileExistsError =>
        if skip_behaviour == "exit" then .error .skipBehaviourAbort else .ok none
    | .osError =>
        if skip_behaviour == "exit" then .error .skipBehaviourAbort else .ok none

/-- Modelled from the spec: Renamer.new_path (tvnamer/files.py) is not
under src/. Spec 4.5: on a destination-already-exists condition with
overwrite disabled the relocation fails (FileExistsError) and never
silently overwrites; otherwise it succeeds with the target path. -/
def new_path_spec (destExists force : Bool) (target : String) : NewPathResult :=
  if destExists && !force then .fileExistsError else .ok target

/-- Helper: mapping a keyed rewrite over rows none of which carry the key
changes nothing. -/
theorem map_keyless_noop (t : List KVStore) (p : String) (r : KVStore)
    (h : ∀ b ∈ t, (b.fullfilename == p) = false) :
    t.map (fun q => if q.fullfilename == p then r else q) = t := by
  induction t with
  | nil => rfl
  | cons a t2 ih =>
      rw [List.map_cons]
      rw [if_neg (by simp [h a (by simp)])]
      rw [ih (fun b hb => h b (by simp [hb]))]

/-- Helper: when a row for p exists, upsert rewrites the conflicting row to
itself, so under the primary-key invariant the cache is unchanged and the
call returns normally. -/
theorem upsert_existing_noop (cache : Cache) (p : String)
    (s se ep nf : Option String) (r : KVStore)
    (hu : uniqueKeys cache) (h : findRecord cache p = some r) :
    upsert cache p s se ep nf = .ok cache := by
  unfold upsert
  rw [h]
  dsimp only
  congr 1
  unfold findRecord at h
  unfold uniqueKeys at hu
  induction cache with
  | nil => simp [List.find?] at h
  | cons a t ih =>
      rw [List.map_cons]
      cases hb : a.fullfilename == p with
      | true =>
          simp only [List.find?_cons, hb] at h
          injection h with h2
          rw [if_pos rfl, ← h2]
          congr 1
          apply map_keyless_noop
          intro b hb2
          have hab := (List.pairwise_cons.mp hu).1 b hb2
          have hap : a.fullfilename = p := by simpa using hb
          have hbp : b.fullfilename ≠ p := by
            rw [← hap]
            exact fun hh => hab hh.symm
          simpa using hbp
      | false =>
          simp only [List.find?_cons, hb] at h
          rw [if_neg (by simp)]
          rw [ih (List.pairwise_cons.mp hu).2 h]

/-- Helper: when no row for p exists and all four fields are supplied, the
INSERT succeeds and appends the new row. -/
theorem upsert_insert_full (cache : Cache) (p a b c d : String)
    (h : findRecord cache p = none) :
    upsert cache p (some a) (some b) (some c) (some d)
      = .ok (cache ++ [⟨p, a, b, c, d⟩]) := by
  unfold upsert
  rw [h]

/-- Helper: when no row for p exists and some field is not supplied, the
INSERT omits a NOT NULL column and raises IntegrityError. -/
theorem upsert_insert_rejected (cache : Cache) (p : String)
    (s se ep nf : Option String) (h : findRecord cache p = none)
    (hmiss : s = none ∨ se = none ∨ ep = none ∨ nf = none) :
    upsert cache p s se ep nf = .error .integrityError := by
  unfold upsert
  rw [h]
  rcases s with _ | a <;> rcases se with _ | b <;> rcases ep with _ | c <;>
    rcases nf with _ | d <;> first | rfl | simp_all

/-- Helper: store_new_choice on an unrecorded path raises IntegrityError
(its upsert always passes newfilename = None). -/
theorem store_new_choice_missing (cache : Cache) (p : String)
    (sid : Option String) (e : EpisodeMeta)
    (h : findRecord cache p = none) :
    store_new_choice cache p sid e = .error .integrityError := by
  unfold store_new_choice
  dsimp only
  exact upsert_insert_rejected cache p sid _ _ none h (Or.inr (Or.inr (Or.inr rfl)))

/-- Helper: store_new_choice on a recorded path is a no-op returning the
cache unchanged. -/
theorem store_new_choice_existing (cache : Cache) (p : String)
    (sid : Option String) (e : EpisodeMeta) (r : KVStore)
    (hu : uniqueKeys cache) (h : findRecord cache p = some r) :
    store_new_choice cache p sid e = .ok cache := by
  unfold store_new_choice
  dsimp only
  exact upsert_existing_noop cache p sid _ _ none r hu h

/-- C1, counterexample: on a path whose record stores seriesid "Z", upsert
with seriesid "X" leaves "Z" in place (the supplied field is not merged
into the existing record), and on a path with no record the call raises
IntegrityError instead of creating one — so the claim's example sequence
upsert(p, series_id="X") then upsert(p, destination="Y") fails at its first
call and never yields a record with both. -/
theorem upsert_merge_claim_cex :
    upsert [⟨"/v/a.mkv", "Z", "1", "2", "N"⟩] "/v/a.mkv"
        (some "X") none none none
      = .ok [⟨"/v/a.mkv", "Z", "1", "2", "N"⟩] ∧
    ("Z" : String) ≠ "X" ∧
    upsert [] "/v/a.mkv" (some "X") none none none = .error .integrityError :=
  ⟨rfl, by decide, rfl⟩

/-- C1 amended: upsert never modifies an existing record — the NOT NULL
schema keeps every stored row fully populated, so the merge step replaces
every supplied value with the stored one and the ON CONFLICT update
rewrites the row to itself; on a path with no record, the INSERT succeeds
only when all four fields are supplied and raises IntegrityError otherwise,
so a partial-field call such as upsert(p, series_id="X") on a fresh path
raises rather than creating a record, and the series-id-then-destination
example sequence never produces a record with both values. -/
theorem upsert_merge_contract :
    (∀ (cache : Cache) (p : String) (s se ep nf : Option String) (r : KVStore),
       uniqueKeys cache → findRecord cache p = some r →
       upsert cache p s se ep nf = .ok cache) ∧
    (∀ (cache : Cache) (p a b c d : String),
       findRecord cache p = none →
       upsert cache p (some a) (some b) (some c) (some d)
         = .ok (cache ++ [⟨p, a, b, c, d⟩])) ∧
    (∀ (cache : Cache) (p : String) (s se ep nf : Option String),
       findRecord cache p = none →
       (s = none ∨ se = none ∨ ep = none ∨ nf = none) →
       upsert cache p s se ep nf = .error .integrityError) ∧
    (∀ (cache : Cache) (p X : String),
       findRecord cache p = none →
       upsert cache p (some X) none none none = .error .integrityError) :=
  ⟨upsert_existing_noop, upsert_insert_full, upsert_insert_rejected,
   fun cache p X h =>
     upsert_insert_rejected cache p (some X) none none none h (Or.inr (Or.inl rfl))⟩

theorem upsert_merge_contract_witness :
    upsert [⟨"/v/a.mkv", "Z", "1", "2", "N"⟩] "/v/a.mkv"
        (some "X") none none none = .ok [⟨"/v/a.mkv", "Z", "1", "2", "N"⟩] ∧
    upsert [] "/v/a.mkv" (some "7") (some "1") (some "2") (some "N")
      = .ok [⟨"/v/a.mkv", "7", "1", "2", "N"⟩] ∧
    upsert [] "/v/a.mkv" none none none (some "N") = .error .integrityError ∧
    upsert [] "/v/b.mkv" (some "X") none none none = .error .integrityError :=
  ⟨upsert_merge_contract.1 [⟨"/v/a.mkv", "Z", "1", "2", "N"⟩] "/v/a.mkv"
      (some "X") none none none ⟨"/v/a.mkv", "Z", "1", "2", "N"⟩
      (by simp [uniqueKeys]) rfl,
   upsert_merge_contract.2.1 [] "/v/a.mkv" "7" "1" "2" "N" (by decide),
   upsert_merge_contract.2.2.1 [] "/v/a.mkv" none none none (some "N")
      (by decide) (Or.inl rfl),
   upsert_merge_contract.2.2.2 [] "/v/b.mkv" "X" (by decide)⟩

/-- C8: forget never returns normally — the trailing fetchone() on the
DELETE CursorResult raises ResourceClosedError, both when a record for the
path exists and when none does; the DELETE itself did run in the session
(uncommitted). Evaluated at concrete failing inputs. -/
theorem forget_fetchone_raises_cex :
    (forget [] "/v/a.mkv").result = .error .resourceClosedError ∧
    (forget [⟨"/v/a.mkv", "1", "1", "2", "A.mkv"⟩] "/v/a.mkv").result
      = .error .resourceClosedError ∧
    (forget [⟨"/v/a.mkv", "1", "1", "2", "A.mkv"⟩] "/v/a.mkv").uncommitted
      = [] :=
  ⟨rfl, rfl, rfl⟩

/-- C10: find_by_newname returns none when no row carries the queried
destination name, returns the row when exactly one does, and raises
MultipleResultsFound when two or more share it — nothing in the schema
keeps two records from sharing a destination name. -/
theorem find_by_newname_unique_or_raise (cache : Cache) (n : String) :
    (cache.filter (fun r => r.newfilename == n) = [] →
       find_by_newname cache n = .ok none) ∧
    (∀ r, cache.filter (fun r2 => r2.newfilename == n) = [r] →
       find_by_newname cache n = .ok (some r)) ∧
    (∀ r1 r2 l, cache.filter (fun r3 => r3.newfilename == n) = r1 :: r2 :: l →
       find_by_newname cache n = .error .multipleResultsFound) := by
  unfold find_by_newname
  exact ⟨fun h => by rw [h], fun r h => by rw [h], fun r1 r2 l h => by rw [h]⟩

theorem find_by_newname_unique_or_raise_witness :
    find_by_newname [] "N" = .ok none ∧
    find_by_newname [⟨"/v/a.mkv", "7", "1", "1", "N"⟩] "N"
      = .ok (some ⟨"/v/a.mkv", "7", "1", "1", "N"⟩) ∧
    find_by_newname [⟨"/v/a.mkv", "7", "1", "1", "N"⟩,
                     ⟨"/v/b.mkv", "7", "1", "2", "N"⟩] "N"
      = .error .multipleResultsFound :=
  ⟨(find_by_newname_unique_or_raise [] "N").1 rfl,
   (find_by_newname_unique_or_raise _ "N").2.1 _ rfl,
   (find_by_newname_unique_or_raise _ "N").2.2 _ _ [] rfl⟩

/-- C4: in rename planning, when the computed name differs from the current
filename and the reverse lookup finds a record claiming that destination,
the variant-suffixed name is selected exactly when the record's source path
differs from this file's path, and a record for this very path keeps the
unsuffixed name; the subsequent line-299 write then targets the selected
name (no-op on a recorded source path, uncaught IntegrityError on an
unrecorded one — the claim asserts the selection, not the write). -/
theorem plan_rename_collision_variant (cache : Cache) (p base variant : String)
    (hne : base ≠ p) :
    (∀ r, find_by_newname cache base = .ok (some r) → r.fullfilename ≠ p →
       collision_adjusted_name cache p base variant = .ok variant ∧
       plan_rename cache p base variant
         = (match upsert cache p none none none (some variant) with
            | .ok c2 => Except.ok (variant, c2)
            | .error err => Except.error err)) ∧
    (∀ r, find_by_newname cache base = .ok (some r) → r.fullfilename = p →
       collision_adjusted_name cache p base variant = .ok base ∧
       plan_rename cache p base variant
         = (match upsert cache p none none none (some base) with
            | .ok c2 => Except.ok (base, c2)
            | .error err => Except.error err)) := by
  have hb : (base == p) = false := by simp [hne]
  constructor
  · intro r hfind hr
    have hr2 : (r.fullfilename != p) = true := by simpa using hr
    have hcan : collision_adjusted_name cache p base variant = .ok variant := by
      unfold collision_adjusted_name
      rw [hfind]
      dsimp only
      rw [if_pos hr2]
    refine ⟨hcan, ?_⟩
    unfold plan_rename
    rw [if_neg (by simp [hb]), hcan]
  · intro r hfind hr
    have hr2 : (r.fullfilename != p) = false := by simp [hr]
    have hcan : collision_adjusted_name cache p base variant = .ok base := by
      unfold collision_adjusted_name
      rw [hfind]
      dsimp only
      rw [if_neg (by simp [hr2])]
    refine ⟨hcan, ?_⟩
    unfold plan_rename
    rw [if_neg (by simp [hb]), hcan]

theorem plan_rename_collision_variant_witness :
    collision_adjusted_name [⟨"/v/b.mkv", "7", "1", "2", "B"⟩]
        "/v/a.mkv" "B" "B (2)" = .ok "B (2)" ∧
    plan_rename [⟨"/v/b.mkv", "7", "1", "2", "B"⟩] "/v/a.mkv" "B" "B (2)"
      = .error .integrityError ∧
    collision_adjusted_name [⟨"/v/a.mkv", "7", "1", "2", "B"⟩]
        "/v/a.mkv" "B" "B (2)" = .ok "B" ∧
    plan_rename [⟨"/v/a.mkv", "7", "1", "2", "B"⟩] "/v/a.mkv" "B" "B (2)"
      = .ok ("B", [⟨"/v/a.mkv", "7", "1", "2", "B"⟩]) :=
  ⟨((plan_rename_collision_variant [⟨"/v/b.mkv", "7", "1", "2", "B"⟩]
      "/v/a.mkv" "B" "B (2)" (by decide)).1
      ⟨"/v/b.mkv", "7", "1", "2", "B"⟩ rfl (by decide)).1,
   ((plan_rename_collision_variant [⟨"/v/b.mkv", "7", "1", "2", "B"⟩]
      "/v/a.mkv" "B" "B (2)" (by decide)).1
      ⟨"/v/b.mkv", "7", "1", "2", "B"⟩ rfl (by decide)).2,
   ((plan_rename_collision_variant [⟨"/v/a.mkv", "7", "1", "2", "B"⟩]
      "/v/a.mkv" "B" "B (2)" (by decide)).2
      ⟨"/v/a.mkv", "7", "1", "2", "B"⟩ rfl rfl).1,
   ((plan_rename_collision_variant [⟨"/v/a.mkv", "7", "1", "2", "B"⟩]
      "/v/a.mkv" "B" "B (2)" (by decide)).2
      ⟨"/v/a.mkv", "7", "1", "2", "B"⟩ rfl rfl).2⟩

/-- C6: do_file_operation raises ValueError when both or neither of the two
destination arguments is supplied, for every possible filesystem outcome
(the guard precedes the filesystem call and does not depend on it); with
exactly one destination it never raises ValueError. -/
theorem do_file_operation_dest_contract (sb : String) (dd dp : Option String)
    (att : NewPathResult) :
    (dd = none → dp = none → do_file_operation sb dd dp att = .error .valueError) ∧
    (∀ d f, dd = some d → dp = some f →
       do_file_operation sb dd dp att = .error .valueError) ∧
    (countNone dd dp = 1 →
       do_file_operation sb dd dp att ≠ .error .valueError) := by
  refine ⟨?_, ?_, ?_⟩
  · rintro rfl rfl
    rfl
  · rintro d f rfl rfl
    rfl
  · intro h1
    unfold do_file_operation
    rw [if_neg (by omega)]
    cases att with
    | ok q => simp
    | fileExistsError => cases hx : sb == "exit" <;> simp [hx]
    | osError => cases hx : sb == "exit" <;> simp [hx]

theorem do_file_operation_dest_contract_witness :
    do_file_operation "exit" none none .osError = .error .valueError ∧
    do_file_operation "skip" (some "/d") (some "/f") .fileExistsError
      = .error .valueError ∧
    do_file_operation "exit" none (some "/f") .osError ≠ .error .valueError :=
  ⟨(do_file_operation_dest_contract "exit" none none .osError).1 rfl rfl,
   (do_file_operation_dest_contract "skip" _ _ .fileExistsError).2.1 "/d" "/f" rfl rfl,
   (do_file_operation_dest_contract "exit" none (some "/f") .osError).2.2 rfl⟩

/-- C7: with overwrite disabled and the destination already existing, the
relocation never yields a path (so the existing destination is never
overwritten): under the exit policy it raises SkipBehaviourAbort, under any
other policy it returns None and the caller moves on. -/
theorem do_file_operation_dest_exists (sb target : String) (dd dp : Option String)
    (h1 : countNone dd dp = 1) :
    (sb = "exit" →
       do_file_operation sb dd dp (new_path_spec true false target)
         = .error .skipBehaviourAbort) ∧
    (sb ≠ "exit" →
       do_file_operation sb dd dp (new_path_spec true false target) = .ok none) ∧
    (∀ res, do_file_operation sb dd dp (new_path_spec true false target)
       ≠ .ok (some res)) := by
  have hnp : new_path_spec true false target = .fileExistsError := rfl
  unfold do_file_operation
  rw [hnp, if_neg (by omega)]
  refine ⟨?_, ?_, ?_⟩
  · rintro rfl
    rfl
  · intro hs
    rw [if_neg (by simp [hs])]
  · intro res
    cases hx : sb == "exit" <;> simp [hx]

theorem do_file_operation_dest_exists_witness :
    do_file_operation "exit" none (some "/f") (new_path_spec true false "/t")
      = .error .skipBehaviourAbort ∧
    do_file_operation "skip" none (some "/f") (new_path_spec true false "/t")
      = .ok none ∧
    do_file_operation "skip" none (some "/f") (new_path_spec true false "/t")
      ≠ .ok (some "/t") :=
  ⟨(do_file_operation_dest_exists "exit" "/t" none (some "/f") rfl).1 rfl,
   (do_file_operation_dest_exists "skip" "/t" none (some "/f") rfl).2.1 (by decide),
   (do_file_operation_dest_exists "skip" "/t" none (some "/f") rfl).2.2 "/t"⟩

/-- C9: precedence of the series-id hint passed to the resolver — a
configured non-empty series_id override wins; otherwise, with
remember_choice enabled, the cached series id for this path is used;
otherwise there is no hint. -/
theorem series_hint_precedence (cfg : Config) (cache : Cache) (p : String) :
    (∀ s, cfg.series_id = some s → s ≠ "" → series_hint cfg cache p = some s) ∧
    (cfg.series_id = none → cfg.remember_choice = true →
       series_hint cfg cache p = lookup cache p) ∧
    (cfg.series_id = none → cfg.remember_choice = false →
       series_hint cfg cache p = none) := by
  refine ⟨?_, ?_, ?_⟩
  · intro s h1 h2
    simp [series_hint, pyOr, h1, h2]
  · intro h1 h2
    simp [series_hint, pyOr, lookup_previous_choice, h1, h2]
  · intro h1 h2
    simp [series_hint, pyOr, lookup_previous_choice, h1, h2]

theorem series_hint_precedence_witness :
    series_hint ⟨"skip", false, false, some "55", true⟩
      [⟨"/v/a.mkv", "9", "1", "2", "A.mkv"⟩] "/v/a.mkv" = some "55" ∧
    series_hint ⟨"skip", false, false, none, true⟩
      [⟨"/v/a.mkv", "9", "1", "2", "A.mkv"⟩] "/v/a.mkv"
      = lookup [⟨"/v/a.mkv", "9", "1", "2", "A.mkv"⟩] "/v/a.mkv" ∧
    series_hint ⟨"skip", false, false, none, false⟩
      [⟨"/v/a.mkv", "9", "1", "2", "A.mkv"⟩] "/v/a.mkv" = none :=
  ⟨(series_hint_precedence _ _ _).1 "55" rfl (by decide),
   (series_hint_precedence _ _ _).2.1 rfl rfl,
   (series_hint_precedence _ _ _).2.2 rfl rfl⟩

/-- Helper: dichotomy of one non-terminal pass — an incrementing pass keeps
the counter, any other pass drops it by at least one. -/
theorem loop_pass_retries (cfg : Config) (s : LoopState) (i : IterInput)
    (s2 : LoopState) (hpos : 0 < s.retries)
    (h : loop_pass cfg s i = .nextState s2) :
    (increments cfg i = true ∧ s2.retries = s.retries) ∨
    (increments cfg i = false ∧ s2.retries ≤ s.retries - 1) := by
  unfold loop_pass at h
  unfold increments
  cases hi : i.attempt with
  | success sid =>
      rw [hi] at h
      dsimp only at h
      injection h with h2
      subst h2
      right
      refine ⟨by simp, ?_⟩
      dsimp only
      omega
  | showNotFound =>
      rw [hi] at h
      dsimp only at h
      by_cases hexit : (cfg.skip_behaviour == "exit") = true
      · rw [if_pos hexit] at h
        exact PassResult.noConfusion h
      · rw [if_neg hexit] at h
        by_cases hask : (cfg.skip_behaviour == "ask") = true
        · rw [if_pos hask] at h
          by_cases hlen : i.userAnswer.length > 1
          · rw [if_pos hlen] at h
            injection h with h2
            subst h2
            left
            refine ⟨by simp [hask, hlen], ?_⟩
            dsimp only
            omega
          · rw [if_neg hlen] at h
            injection h with h2
            subst h2
            right
            refine ⟨by simp [hlen], ?_⟩
            dsimp only
            omega
        · rw [if_neg hask] at h
          exact PassResult.noConfusion h
  | dataRetrievalError =>
      rw [hi] at h
      dsimp only at h
      by_cases hstrict : (cfg.always_rename && cfg.skip_file_on_error) = true
      · rw [if_pos hstrict] at h
        by_cases hexit : (cfg.skip_behaviour == "exit") = true
        · rw [if_pos hexit] at h
          exact PassResult.noConfusion h
        · rw [if_neg hexit] at h
          by_cases hask : (cfg.skip_behaviour == "ask") = true
          · rw [if_pos hask] at h
            by_cases hlen : i.userAnswer.length > 1
            · rw [if_pos hlen] at h
              injection h with h2
              subst h2
              left
              refine ⟨by simp [hask, hlen, hstrict], ?_⟩
              dsimp only
              omega
            · rw [if_neg hlen] at h
              injection h with h2
              subst h2
              right
              refine ⟨by simp [hlen], ?_⟩
              dsimp only
              omega
          · rw [if_neg hask] at h
            exact PassResult.noConfusion h
      · rw [if_neg hstrict] at h
        injection h with h2
        subst h2
        have hstrict2 : (cfg.always_rename && cfg.skip_file_on_error) = false := by
          simpa using hstrict
        right
        refine ⟨by simp [hstrict2], ?_⟩
        dsimp only
        omega
  | identityErr k sid =>
      rw [hi] at h
      dsimp only at h
      by_cases hstrict : (cfg.always_rename && cfg.skip_file_on_error) = true
      · rw [if_pos hstrict] at h
        by_cases hexit : (cfg.skip_behaviour == "exit") = true
        · rw [if_pos hexit] at h
          exact PassResult.noConfusion h
        · rw [if_neg hexit] at h
          exact PassResult.noConfusion h
      · rw [if_neg hstrict] at h
        injection h with h2
        subst h2
        right
        refine ⟨by simp, ?_⟩
        dsimp only
        omega

/-- Helper: without incrementing passes, the loop finishes within at most
retries-many trace elements. -/
theorem run_machine_terminates (cfg : Config) :
    ∀ (trace : List IterInput) (s : LoopState),
      (∀ i ∈ trace, increments cfg i = false) →
      s.retries ≤ (trace.length : Int) →
      (run_machine cfg s trace).isPending = false := by
  intro trace
  induction trace with
  | nil =>
      intro s _ hlen
      unfold run_machine
      rw [if_pos (by simpa using hlen)]
      rfl
  | cons i t ih =>
      intro s hinc hlen
      unfold run_machine
      by_cases hr : s.retries ≤ 0
      · rw [if_pos hr]
        rfl
      · rw [if_neg hr]
        cases hp : loop_pass cfg s i with
        | raiseAbort => rfl
        | returnNone => rfl
        | nextState s2 =>
            have hpos : 0 < s.retries := by omega
            rcases loop_pass_retries cfg s i s2 hpos hp with ⟨hT, _⟩ | ⟨_, hle⟩
            · rw [hinc i (by simp)] at hT
              exact Bool.noConfusion hT
            · refine ih s2 (fun j hj => hinc j (by simp [hj])) ?_
              simp only [List.length_cons] at hlen
              push_cast at hlen ⊢
              omega

/-- C2: for a file whose resolution never succeeds (in particular one
terminating with an identity error), the committed Decision Cache state is
unchanged: the skip and abort exits never reach the store, and even the
fall-through store attempt cannot change the cache — on an unrecorded path
its INSERT omits the NOT NULL newfilename column and raises IntegrityError
before any commit, and on a recorded path the fully populated existing row
makes the ON CONFLICT update rewrite the row to itself. -/
theorem resolution_cache_unchanged (cfg : Config) (cache : Cache)
    (e : EpisodeMeta) (trace : List IterInput) (hu : uniqueKeys cache)
    (_hns : ∀ i ∈ trace, i.attempt.isSuccess = false) :
    (resolution_cache_effect cfg cache e trace).1 = cache := by
  unfold resolution_cache_effect process_file_resolution
  dsimp only
  cases hrun : run_machine cfg initLoopState trace with
  | fellThrough s =>
      dsimp only
      cases hsid : s.episodeSid with
      | none => rfl
      | some sid =>
          dsimp only
          cases hrec : findRecord cache e.fullfilename with
          | none =>
              rw [store_new_choice_missing cache e.fullfilename (pyOrNone sid) e hrec]
          | some r =>
              rw [store_new_choice_existing cache e.fullfilename (pyOrNone sid) e r hu hrec]
  | returnedNone => rfl
  | abortBatch => rfl
  | pending s => rfl

/-- C2 witness: a fall-through SeasonNotFound leaves a recorded cache
unchanged (the store no-ops) and leaves the empty cache unchanged (the
store raises IntegrityError before commit). -/
theorem resolution_cache_unchanged_witness :
    (resolution_cache_effect ⟨"skip", false, false, none, false⟩
        [⟨"/v/a.mkv", "7", "1", "1", "A.mkv"⟩] ⟨"/v/a.mkv", false, 1, [2]⟩
        [⟨.identityErr .episodeNotFound "42", ""⟩]).1
      = [⟨"/v/a.mkv", "7", "1", "1", "A.mkv"⟩] ∧
    (resolution_cache_effect ⟨"skip", false, false, none, false⟩ []
        ⟨"/v/a.mkv", false, 1, [2]⟩
        [⟨.identityErr .episodeNotFound "42", ""⟩]).1
      = [] :=
  ⟨resolution_cache_unchanged _ _ _ _ (by simp [uniqueKeys]) (by decide),
   resolution_cache_unchanged _ _ _ _ (by simp [uniqueKeys]) (by decide)⟩

/-- C3: the resolution loop is bounded — a non-terminal pass keeps the
retry counter exactly when it is an ask-branch pass with a non-trivial
user-supplied name and otherwise drops it by at least one; consequently,
starting from the initial counter of 1, any non-empty trace with no such
incrementing pass drives the machine to a terminal outcome (it never keeps
looping without user corrections). -/
theorem retry_loop_bounded (cfg : Config) :
    (∀ (s : LoopState) (i : IterInput) (s2 : LoopState), 0 < s.retries →
       loop_pass cfg s i = .nextState s2 →
       (increments cfg i = true ∧ s2.retries = s.retries) ∨
       (increments cfg i = false ∧ s2.retries ≤ s.retries - 1)) ∧
    (∀ trace : List IterInput, (∀ i ∈ trace, increments cfg i = false) →
       1 ≤ trace.length →
       (run_machine cfg initLoopState trace).isPending = false) := by
  refine ⟨loop_pass_retries cfg, ?_⟩
  intro trace hinc hlen
  refine run_machine_terminates cfg trace initLoopState hinc ?_
  show (1 : Int) ≤ _
  exact_mod_cast hlen

theorem retry_loop_bounded_witness :
    ((increments ⟨"skip", false, false, none, false⟩ ⟨.dataRetrievalError, ""⟩ = true ∧
        (LoopState.mk 0 none none).retries = initLoopState.retries) ∨
     (increments ⟨"skip", false, false, none, false⟩ ⟨.dataRetrievalError, ""⟩ = false ∧
        (LoopState.mk 0 none none).retries ≤ initLoopState.retries - 1)) ∧
    (run_machine ⟨"skip", false, false, none, false⟩ initLoopState
        [⟨.dataRetrievalError, ""⟩]).isPending = false :=
  ⟨(retry_loop_bounded ⟨"skip", false, false, none, false⟩).1 initLoopState
      ⟨.dataRetrievalError, ""⟩ ⟨0, none, none⟩ (by decide) (by decide),
   (retry_loop_bounded ⟨"skip", false, false, none, false⟩).2
      [⟨.dataRetrievalError, ""⟩] (by decide) (by decide)⟩

/-- C5, counterexample: with skip-behaviour exit but always_rename off, a
SeasonNotFound on the first file of a three-file batch raises no
batch-abort signal: the error logs, the file falls through, its store
no-ops (all three paths already have cache rows, so no IntegrityError
either), and all three files are processed, where the claim demands the
batch halt with SkipBehaviourAbort before file 2. -/
theorem exit_policy_no_abort_on_season_cex :
    run_batch ⟨"exit", false, false, none, false⟩
      [⟨"/v/a.mkv", "7", "1", "1", "A.mkv"⟩,
       ⟨"/v/b.mkv", "7", "1", "2", "B.mkv"⟩,
       ⟨"/v/c.mkv", "7", "1", "3", "C.mkv"⟩]
      [⟨⟨"/v/a.mkv", false, 1, [1]⟩, [⟨.identityErr .seasonNotFound "42", ""⟩]⟩,
       ⟨⟨"/v/b.mkv", false, 1, [2]⟩, [⟨.success "7", ""⟩]⟩,
       ⟨⟨"/v/c.mkv", false, 1, [3]⟩, [⟨.success "7", ""⟩]⟩]
      = .completed 3 ∧
    BatchResult.completed 3 ≠ .aborted 0 :=
  ⟨by decide, by decide⟩

/-- C5 amended: with skip-behaviour exit, a ShowNotFound while resolving a
file raises SkipBehaviourAbort and the batch halts before any later file;
a Season/Episode/EpisodeName-NotFound raises SkipBehaviourAbort only when
always_rename and skip_file_on_error are both enabled — otherwise the
error logs and the loop falls through to the store, which on an unrecorded
path crashes the run with an uncaught IntegrityError (a halt, but not the
batch-abort signal) and on a recorded path no-ops, letting the batch
continue with the next file. -/
theorem exit_policy_abort (cfg : Config) (cache : Cache) (j : FileJob)
    (rest : List FileJob) (i : IterInput) (t : List IterInput)
    (hexit : cfg.skip_behaviour = "exit") (htr : j.trace = i :: t) :
    (i.attempt = .showNotFound → run_batch cfg cache (j :: rest) = .aborted 0) ∧
    (∀ k sid, i.attempt = .identityErr k sid → cfg.always_rename = true →
       cfg.skip_file_on_error = true →
       run_batch cfg cache (j :: rest) = .aborted 0) ∧
    (∀ k sid, i.attempt = .identityErr k sid →
       (cfg.always_rename && cfg.skip_file_on_error) = false →
       (findRecord cache j.meta.fullfilename = none →
          run_batch cfg cache (j :: rest) = .crashed 0) ∧
       (∀ r, uniqueKeys cache → findRecord cache j.meta.fullfilename = some r →
          process_file_resolution cfg cache j = .ok cache)) := by
  refine ⟨?_, ?_, ?_⟩
  · intro ha
    have hlp : loop_pass cfg initLoopState i = .raiseAbort := by
      unfold loop_pass
      rw [ha]
      dsimp only
      rw [if_pos (by simp [hexit])]
    have hm : run_machine cfg initLoopState j.trace = .abortBatch := by
      rw [htr]
      unfold run_machine
      rw [if_neg (by decide), hlp]
    unfold run_batch process_file_resolution
    rw [hm]
  · intro k sid ha halways hskip
    have hlp : loop_pass cfg initLoopState i = .raiseAbort := by
      unfold loop_pass
      rw [ha]
      dsimp only
      rw [if_pos (by simp [halways, hskip]), if_pos (by simp [hexit])]
    have hm : run_machine cfg initLoopState j.trace = .abortBatch := by
      rw [htr]
      unfold run_machine
      rw [if_neg (by decide), hlp]
    unfold run_batch process_file_resolution
    rw [hm]
  · intro k sid ha hstrict
    have hlp : loop_pass cfg initLoopState i = .nextState ⟨0, none, some sid⟩ := by
      unfold loop_pass
      rw [ha]
      dsimp only
      rw [if_neg (by simp [hstrict])]
      rfl
    have hm : run_machine cfg initLoopState j.trace
        = .fellThrough ⟨0, none, some sid⟩ := by
      rw [htr]
      unfold run_machine
      rw [if_neg (by decide), hlp]
      cases t with
      | nil =>
          unfold run_machine
          rw [if_pos (show (0 : Int) ≤ 0 from le_refl 0)]
      | cons x t2 =>
          unfold run_machine
          rw [if_pos (show (0 : Int) ≤ 0 from le_refl 0)]
    constructor
    · intro hrec
      unfold run_batch process_file_resolution
      rw [hm]
      dsimp only
      rw [store_new_choice_missing cache j.meta.fullfilename (pyOrNone sid) j.meta hrec]
    · intro r hu hrec
      unfold process_file_resolution
      rw [hm]
      dsimp only
      rw [store_new_choice_existing cache j.meta.fullfilename (pyOrNone sid) j.meta r hu hrec]

/-- C5 witness: concrete instances — an aborted batch for each abort shape,
a crashed run for the unrecorded fall-through, and a continuing file for
the recorded fall-through. -/
theorem exit_policy_abort_witness :
    run_batch ⟨"exit", false, false, none, false⟩ []
      [⟨⟨"/v/a.mkv", false, 1, [1]⟩, [⟨.showNotFound, ""⟩]⟩,
       ⟨⟨"/v/b.mkv", false, 1, [2]⟩, [⟨.success "7", ""⟩]⟩]
      = .aborted 0 ∧
    run_batch ⟨"exit", true, true, none, false⟩ []
      [⟨⟨"/v/a.mkv", false, 1, [1]⟩, [⟨.identityErr .seasonNotFound "42", ""⟩]⟩,
       ⟨⟨"/v/b.mkv", false, 1, [2]⟩, [⟨.success "7", ""⟩]⟩]
      = .aborted 0 ∧
    run_batch ⟨"exit", false, false, none, false⟩ []
      [⟨⟨"/v/a.mkv", false, 1, [1]⟩, [⟨.identityErr .seasonNotFound "42", ""⟩]⟩,
       ⟨⟨"/v/b.mkv", false, 1, [2]⟩, [⟨.success "7", ""⟩]⟩]
      = .crashed 0 ∧
    process_file_resolution ⟨"exit", false, false, none, false⟩
      [⟨"/v/a.mkv", "7", "1", "1", "A.mkv"⟩]
      ⟨⟨"/v/a.mkv", false, 1, [1]⟩, [⟨.identityErr .seasonNotFound "42", ""⟩]⟩
      = .ok [⟨"/v/a.mkv", "7", "1", "1", "A.mkv"⟩] :=
  ⟨(exit_policy_abort ⟨"exit", false, false, none, false⟩ []
      ⟨⟨"/v/a.mkv", false, 1, [1]⟩, [⟨.showNotFound, ""⟩]⟩
      [⟨⟨"/v/b.mkv", false, 1, [2]⟩, [⟨.success "7", ""⟩]⟩]
      ⟨.showNotFound, ""⟩ [] rfl rfl).1 rfl,
   (exit_policy_abort ⟨"exit", true, true, none, false⟩ []
      ⟨⟨"/v/a.mkv", false, 1, [1]⟩, [⟨.identityErr .seasonNotFound "42", ""⟩]⟩
      [⟨⟨"/v/b.mkv", false, 1, [2]⟩, [⟨.success "7", ""⟩]⟩]
      ⟨.identityErr .seasonNotFound "42", ""⟩ [] rfl rfl).2.1 .seasonNotFound "42"
      rfl rfl rfl,
   ((exit_policy_abort ⟨"exit", false, false, none, false⟩ []
      ⟨⟨"/v/a.mkv", false, 1, [1]⟩, [⟨.identityErr .seasonNotFound "42", ""⟩]⟩
      [⟨⟨"/v/b.mkv", false, 1, [2]⟩, [⟨.success "7", ""⟩]⟩]
      ⟨.identityErr .seasonNotFound "42", ""⟩ [] rfl rfl).2.2 .seasonNotFound "42"
      rfl rfl).1 rfl,
   ((exit_policy_abort ⟨"exit", false, false, none, false⟩
      [⟨"/v/a.mkv", "7", "1", "1", "A.mkv"⟩]
      ⟨⟨"/v/a.mkv", false, 1, [1]⟩, [⟨.identityErr .seasonNotFound "42", ""⟩]⟩ []
      ⟨.identityErr .seasonNotFound "42", ""⟩ [] rfl rfl).2.2 .seasonNotFound "42"
      rfl rfl).2 ⟨"/v/a.mkv", "7", "1", "1", "A.mkv"⟩ (by simp [uniqueKeys]) rfl⟩

end Tvnamer
